import Mathlib

/-
Verification of the Siege6 spatial-audio backend core.

The development shallowly embeds the Python sources:
- audio_backend.py: data model, NullAudioBackend, AudioBackendManager
- backend_openal.py: OpenALBackend
- backend_windows_spatial.py: WindowsSpatialBackend

Floating-point arithmetic is idealized as real arithmetic.  Python object
references (the manager aliases backend objects between its registry dict
and its active reference) are modelled with an explicit heap of natural
number addresses.
-/

namespace Siege6

/-! ## Pure spatial math (idealizing Python's `math` module over the reals) -/

/-- Degrees to radians, as in Python's `math.radians`. -/
noncomputable def radians (deg : Real) : Real := deg * Real.pi / 180

/-- Radians to degrees, as in Python's `math.degrees`. -/
noncomputable def degrees (rad : Real) : Real := rad * 180 / Real.pi

/-- Two-argument arctangent, the mathematical function computed by Python's
`math.atan2 (y, x)` (range (-pi, pi], signed zeros do not exist in ℝ). -/
noncomputable def atan2 (y x : Real) : Real :=
  if 0 < x then Real.arctan (y / x)
  else if x < 0 then
    (if 0 ≤ y then Real.arctan (y / x) + Real.pi else Real.arctan (y / x) - Real.pi)
  else
    (if 0 < y then Real.pi / 2 else if y < 0 then -(Real.pi / 2) else 0)

/-- dB to linear gain as inlined in `_generate_openal_parameters` (line 214-215
of backend_openal.py) and `_generate_windows_spatial_parameters` (line 212-213
of backend_windows_spatial.py): `max(0.0, min(1.0, 10 ** (db / 20)))`. -/
noncomputable def db_to_linear_gain (db : Real) : Real :=
  max 0 (min 1 ((10 : Real) ^ (db / 20)))

/-- Attenuation computed at backend_openal.py lines 169-174:
base distance falloff, then an occlusion penalty of `(1 - o) * 10.0`
for distances strictly greater than 5.0. -/
noncomputable def openal_attenuate (v d f o : Real) : Real :=
  let a := v - d * f
  if 5 < d then a - (1 - o) * 10 else a

/-- Attenuation computed at backend_windows_spatial.py lines 174-180:
same shape as the OpenAL one but with occlusion penalty constant 12.0. -/
noncomputable def windows_attenuate (v d f o : Real) : Real :=
  let a := v - d * f
  if 5 < d then a - (1 - o) * 12 else a

/-- First normalization loop of backend_windows_spatial.py lines 169-170:
`while relative_azimuth > 180: relative_azimuth -= 360`. -/
noncomputable def normalize_down (a : Real) : Real :=
  if h : 180 < a then normalize_down (a - 360) else a
termination_by (Int.ceil ((a - 180) / 360)).toNat
decreasing_by
  have h1 : (0 : Real) < (a - 180) / 360 := by
    apply div_pos <;> [linarith; norm_num]
  have h2 : Int.ceil ((a - 360 - 180) / 360) = Int.ceil ((a - 180) / 360) - 1 := by
    have h3 : (a - 360 - 180) / 360 = (a - 180) / 360 - 1 := by ring
    rw [h3]
    exact_mod_cast Int.ceil_sub_int ((a - 180) / 360) 1
  have h4 : 0 < Int.ceil ((a - 180) / 360) := Int.ceil_pos.mpr h1
  rw [h2]
  omega

/-- Second normalization loop of backend_windows_spatial.py lines 171-172:
`while relative_azimuth < -180: relative_azimuth += 360`. -/
noncomputable def normalize_up (a : Real) : Real :=
  if h : a < -180 then normalize_up (a + 360) else a
termination_by (Int.ceil ((-180 - a) / 360)).toNat
decreasing_by
  have h1 : (0 : Real) < (-180 - a) / 360 := by
    apply div_pos <;> [linarith; norm_num]
  have h2 : Int.ceil ((-180 - (a + 360)) / 360) = Int.ceil ((-180 - a) / 360) - 1 := by
    have h3 : (-180 - (a + 360)) / 360 = (-180 - a) / 360 - 1 := by ring
    rw [h3]
    exact_mod_cast Int.ceil_sub_int ((-180 - a) / 360) 1
  have h4 : 0 < Int.ceil ((-180 - a) / 360) := Int.ceil_pos.mpr h1
  rw [h2]
  omega

/-- Both loops in source order: subtract 360 while above 180, then add 360
while below -180. -/
noncomputable def normalize_angle (a : Real) : Real :=
  normalize_up (normalize_down a)

/-! ## Data model (audio_backend.py) -/

/-- SpatialPosition (audio_backend.py lines 19-27). -/
structure SpatialPosition where
  x : Real
  y : Real
  z : Real

/-- AudioMetadata (audio_backend.py lines 30-41). -/
structure AudioMetadata where
  name : String
  description : String
  frequency_range : Real × Real
  volume_db : Real
  spatial_falloff : Real
  reverb_amount : Real
  occlusion_factor : Real
  directional : Bool
  position : Option SpatialPosition

/-- The three members of the AudioBackendType enum (audio_backend.py 12-16). -/
inductive AudioBackendType where
  | openal
  | windows_spatial
  | none_
deriving DecidableEq, Repr

/-- The three backend classes present in the repository. -/
inductive BackendClass where
  | nullB
  | openalB
  | windowsB
deriving DecidableEq, Repr

/-- A backend object.  `initialized` is the mutable readiness flag of the
Python base class; the remaining booleans are the environment/availability
facts each concrete class records at construction time:
`openal_available` (PyOpenAL import succeeded), `device_ok` (oalOpen and
context creation succeed when attempted), `is_windows` and
`winsound_available` (platform checks of WindowsSpatialBackend). -/
structure Backend where
  cls : BackendClass
  initialized : Bool
  openal_available : Bool
  device_ok : Bool
  is_windows : Bool
  winsound_available : Bool
deriving DecidableEq, Repr

/-- The `backend_type` attribute each class sets in its constructor. -/
def backend_type (b : Backend) : AudioBackendType :=
  match b.cls with
  | BackendClass.nullB => AudioBackendType.none_
  | BackendClass.openalB => AudioBackendType.openal
  | BackendClass.windowsB => AudioBackendType.windows_spatial

/-- The `initialize` method of each class.
Null (audio_backend.py 129-132): always sets initialized and returns True.
OpenAL (backend_openal.py 36-68): returns False if the library is missing;
returns False without touching `initialized` when device or context
acquisition fails; otherwise marks initialized.
Windows (backend_windows_spatial.py 39-71): returns False off Windows or
without the audio APIs, otherwise marks initialized. -/
def backend_init (b : Backend) : Backend × Bool :=
  match b.cls with
  | BackendClass.nullB => ({ b with initialized := true }, true)
  | BackendClass.openalB =>
      if b.openal_available then
        if b.device_ok then ({ b with initialized := true }, true)
        else (b, false)
      else (b, false)
  | BackendClass.windowsB =>
      if b.is_windows && b.winsound_available then ({ b with initialized := true }, true)
      else (b, false)

/-- The `shutdown` method of each class.  OpenAL returns early (leaving
state untouched) when the library is unavailable (backend_openal.py 72-73). -/
def backend_shutdown (b : Backend) : Backend :=
  match b.cls with
  | BackendClass.nullB => { b with initialized := false }
  | BackendClass.openalB =>
      if b.openal_available then { b with initialized := false } else b
  | BackendClass.windowsB => { b with initialized := false }

/-- The `is_available` method.  The Null class inherits the base-class
default (audio_backend.py 114-119), which attempts `initialize()` — hence
it may mutate the object.  The two concrete classes override it with pure
availability checks (backend_openal.py 267-269, backend_windows_spatial.py
289-291). -/
def backend_is_available (b : Backend) : Backend × Bool :=
  match b.cls with
  | BackendClass.nullB => backend_init b
  | BackendClass.openalB => (b, b.openal_available)
  | BackendClass.windowsB => (b, b.is_windows && b.winsound_available)

/-- A freshly constructed NullAudioBackend(). -/
def freshNull : Backend :=
  { cls := BackendClass.nullB, initialized := false, openal_available := false,
    device_ok := false, is_windows := false, winsound_available := false }

/-- A NullAudioBackend() on which `initialize()` has been called. -/
def initNull : Backend := { freshNull with initialized := true }

/-! ## Spatial parameter computation (the `_calculate_spatial_parameters`
and `_generate_*_parameters` methods) -/

/-- The distance and direction computation shared verbatim by
backend_openal.py lines 143-158 and backend_windows_spatial.py lines
140-155 (the Null backend performs only the distance part of it,
audio_backend.py lines 146-157).  Also records the raw displacement
components, which the sources keep for the subsequent angle computation
(set to 0 when there is no source position). -/
structure DistDir where
  dx : Real
  dy : Real
  dz : Real
  distance : Real
  direction : Real × Real × Real

noncomputable def distance_and_direction (pos : Option SpatialPosition)
    (lp : SpatialPosition) : DistDir :=
  match pos with
  | Option.none => { dx := 0, dy := 0, dz := 0, distance := 0, direction := (0, 0, 0) }
  | Option.some p =>
      let dx := p.x - lp.x
      let dy := p.y - lp.y
      let dz := p.z - lp.z
      let distance := Real.sqrt (dx ^ 2 + dy ^ 2 + dz ^ 2)
      if 0 < distance then
        { dx := dx, dy := dy, dz := dz, distance := distance,
          direction := (dx / distance, dy / distance, dz / distance) }
      else
        { dx := dx, dy := dy, dz := dz, distance := distance, direction := (0, 0, 0) }

/-- The result_data dict built by OpenALBackend._calculate_spatial_parameters
(backend_openal.py lines 179-198); input-echo entries are omitted. -/
structure OpenALCalc where
  distance : Real
  direction : Real × Real × Real
  relative_angle_degrees : Real
  pan : Real
  attenuated_volume_db : Real
  doppler_shift : Real
  reverb_amount : Real
  frequency_low : Real
  frequency_high : Real

noncomputable def openal_calculate_spatial_parameters (md : AudioMetadata)
    (lp : SpatialPosition) (lo : Real × Real × Real) : OpenALCalc :=
  let dd := distance_and_direction md.position lp
  let relative_angle := atan2 dd.dx dd.dz - radians lo.1
  { distance := dd.distance
    direction := dd.direction
    relative_angle_degrees := degrees relative_angle
    pan := Real.sin relative_angle
    attenuated_volume_db :=
      openal_attenuate md.volume_db dd.distance md.spatial_falloff md.occlusion_factor
    doppler_shift := 1
    reverb_amount := md.reverb_amount
    frequency_low := md.frequency_range.1
    frequency_high := md.frequency_range.2 }

/-- The dict built by OpenALBackend._generate_openal_parameters
(backend_openal.py lines 200-228). -/
structure OpenALParams where
  al_position : Real × Real × Real
  al_velocity : Real × Real × Real
  al_gain : Real
  al_pitch : Real
  al_rolloff_factor : Real
  al_reference_distance : Real
  al_max_distance : Real
  al_cone_inner_angle : Real
  al_cone_outer_angle : Real
  al_cone_outer_gain : Real

noncomputable def generate_openal_parameters (md : AudioMetadata)
    (sd : OpenALCalc) : OpenALParams :=
  let source_position : Real × Real × Real :=
    match md.position with
    | Option.none => (0, 0, 0)
    | Option.some p => (p.x, p.y, p.z)
  { al_position := source_position
    al_velocity := (0, 0, 0)
    al_gain := db_to_linear_gain sd.attenuated_volume_db
    al_pitch := sd.doppler_shift
    al_rolloff_factor := md.spatial_falloff
    al_reference_distance := 1
    al_max_distance := 100
    al_cone_inner_angle := if md.directional then 60 else 360
    al_cone_outer_angle := if md.directional then 120 else 360
    al_cone_outer_gain := if md.directional then 0.5 else 1 }

/-- The result_data dict built by
WindowsSpatialBackend._calculate_spatial_parameters
(backend_windows_spatial.py lines 182-200); input-echo entries omitted. -/
structure WindowsCalc where
  distance : Real
  direction : Real × Real × Real
  azimuth : Real
  elevation : Real
  attenuated_volume_db : Real
  reverb_amount : Real
  frequency_low : Real
  frequency_high : Real

noncomputable def windows_calculate_spatial_parameters (md : AudioMetadata)
    (lp : SpatialPosition) (lo : Real × Real × Real) : WindowsCalc :=
  let dd := distance_and_direction md.position lp
  let azimuth := degrees (atan2 dd.dx dd.dz)
  let elevation := degrees (atan2 dd.dy (Real.sqrt (dd.dx ^ 2 + dd.dz ^ 2)))
  let relative_azimuth := normalize_angle (azimuth - lo.1)
  let relative_elevation := elevation - lo.2.1
  { distance := dd.distance
    direction := dd.direction
    azimuth := relative_azimuth
    elevation := relative_elevation
    attenuated_volume_db :=
      windows_attenuate md.volume_db dd.distance md.spatial_falloff md.occlusion_factor
    reverb_amount := md.reverb_amount
    frequency_low := md.frequency_range.1
    frequency_high := md.frequency_range.2 }

/-- The dict built by
WindowsSpatialBackend._generate_windows_spatial_parameters
(backend_windows_spatial.py lines 202-249). -/
structure WindowsParams where
  position : Real × Real × Real
  position_distance : Real
  volume : Real
  azimuth_degrees : Real
  elevation_degrees : Real
  distance_meters : Real
  directivity_pattern : String
  reverb_enabled : Bool
  reverb_level : Real
  occlusion_loss : Real
  low_pass : Real
  high_pass : Real
  enable_hrtf : Bool
  enable_room_modeling : Bool

noncomputable def generate_windows_spatial_parameters (md : AudioMetadata)
    (sd : WindowsCalc) : WindowsParams :=
  let azimuth_rad := radians sd.azimuth
  let elevation_rad := radians sd.elevation
  { position := (Real.cos elevation_rad * Real.sin azimuth_rad,
                 Real.sin elevation_rad,
                 Real.cos elevation_rad * Real.cos azimuth_rad)
    position_distance := sd.distance
    volume := db_to_linear_gain sd.attenuated_volume_db
    azimuth_degrees := sd.azimuth
    elevation_degrees := sd.elevation
    distance_meters := sd.distance
    directivity_pattern := if md.directional then "Cardioid" else "Omnidirectional"
    reverb_enabled := if (0.1 : Real) < md.reverb_amount then true else false
    reverb_level := md.reverb_amount
    occlusion_loss := 1 - md.occlusion_factor
    low_pass := md.frequency_range.2
    high_pass := md.frequency_range.1
    enable_hrtf := true
    enable_room_modeling := true }

/-! ## Processing results and the process_spatial_audio methods -/

/-- The static part of each class's get_backend_info dict. -/
structure BackendInfoData where
  name : String
  type_tag : String
  version : String
  description : String

def get_backend_info (b : Backend) : BackendInfoData :=
  match b.cls with
  | BackendClass.nullB =>
      { name := "Null Audio Backend", type_tag := "none", version := "1.0.0",
        description := "Fallback backend providing metadata analysis without audio processing" }
  | BackendClass.openalB =>
      { name := "OpenAL Audio Backend", type_tag := "openal", version := "1.0.0",
        description := "Cross-platform 3D spatial audio using OpenAL" }
  | BackendClass.windowsB =>
      { name := "Windows Spatial Sound Backend", type_tag := "windows_spatial",
        version := "1.0.0",
        description := "Native Windows spatial audio using Windows Sonic/Dolby Atmos" }

/-- The result dict of NullAudioBackend.process_spatial_audio
(audio_backend.py lines 159-165); input-echo entries omitted. -/
structure NullProcessed where
  distance : Real
  attenuated_volume_db : Real
  note : String

/-- The processed_audio payload of a result, one shape per backend class. -/
inductive ProcessedAudio where
  | nullData (d : NullProcessed)
  | openalData (cd : OpenALCalc) (params : OpenALParams)
  | windowsData (cd : WindowsCalc) (params : WindowsParams)

/-- AudioProcessingResult (audio_backend.py lines 57-63). -/
structure AudioProcessingResult where
  success : Bool
  message : String
  processed_audio : Option ProcessedAudio
  backend_info : Option BackendInfoData

/-- NullAudioBackend.process_spatial_audio (audio_backend.py lines 138-172).
Note that it never consults `initialized`. -/
noncomputable def null_process_spatial_audio (b : Backend) (md : AudioMetadata)
    (lp : SpatialPosition) (_lo : Real × Real × Real) : AudioProcessingResult :=
  let da : Real × Real :=
    match md.position with
    | Option.some p =>
        let dx := p.x - lp.x
        let dy := p.y - lp.y
        let dz := p.z - lp.z
        let distance := Real.sqrt (dx ^ 2 + dy ^ 2 + dz ^ 2)
        (distance, md.volume_db - distance * md.spatial_falloff)
    | Option.none => (0, md.volume_db)
  { success := true
    message := "Audio metadata analyzed (no backend active)"
    processed_audio := Option.some (ProcessedAudio.nullData
      { distance := da.1, attenuated_volume_db := da.2,
        note := "Using NullAudioBackend - metadata only, no actual audio processing" })
    backend_info := Option.some (get_backend_info b) }

/-- OpenALBackend.process_spatial_audio (backend_openal.py lines 91-133). -/
noncomputable def openal_process_spatial_audio (b : Backend) (md : AudioMetadata)
    (lp : SpatialPosition) (lo : Real × Real × Real) : AudioProcessingResult :=
  if b.initialized then
    let sd := openal_calculate_spatial_parameters md lp lo
    let params := generate_openal_parameters md sd
    { success := true
      message := "Audio processed with OpenAL spatial positioning"
      processed_audio := Option.some (ProcessedAudio.openalData sd params)
      backend_info := Option.some (get_backend_info b) }
  else
    { success := false
      message := "OpenAL backend not initialized"
      processed_audio := Option.none
      backend_info := Option.some (get_backend_info b) }

/-- WindowsSpatialBackend.process_spatial_audio
(backend_windows_spatial.py lines 82-128).  When initialized the renderer
type string is the constant "Windows Sonic" set by `initialize`. -/
noncomputable def windows_process_spatial_audio (b : Backend) (md : AudioMetadata)
    (lp : SpatialPosition) (lo : Real × Real × Real) : AudioProcessingResult :=
  if b.initialized then
    let sd := windows_calculate_spatial_parameters md lp lo
    let params := generate_windows_spatial_parameters md sd
    { success := true
      message := "Audio processed with Windows Sonic"
      processed_audio := Option.some (ProcessedAudio.windowsData sd params)
      backend_info := Option.some (get_backend_info b) }
  else
    { success := false
      message := "Windows Spatial Sound backend not initialized"
      processed_audio := Option.none
      backend_info := Option.some (get_backend_info b) }

/-- Dynamic dispatch of process_spatial_audio over the three classes. -/
noncomputable def process_spatial_audio (b : Backend) (md : AudioMetadata)
    (lp : SpatialPosition) (lo : Real × Real × Real) : AudioProcessingResult :=
  match b.cls with
  | BackendClass.nullB => null_process_spatial_audio b md lp lo
  | BackendClass.openalB => openal_process_spatial_audio b md lp lo
  | BackendClass.windowsB => windows_process_spatial_audio b md lp lo

/-! ## The backend manager (audio_backend.py lines 194-262), with an
explicit heap so that Python's reference aliasing between the registry
dict and the active reference is preserved. -/

structure ManagerState where
  heap : Nat → Backend
  nextAddr : Nat
  backends : AudioBackendType → Option Nat
  active : Nat

/-- Allocate a new backend object on the heap (Python object construction). -/
def alloc (m : ManagerState) (b : Backend) : ManagerState × Nat :=
  ({ m with heap := Function.update m.heap m.nextAddr b, nextAddr := m.nextAddr + 1 },
   m.nextAddr)

/-- AudioBackendManager.__init__ (lines 197-200): empty registry, a fresh
NullAudioBackend as active, initialized. -/
def newManager : ManagerState :=
  { heap := Function.update (fun _ => freshNull) 0 initNull
    nextAddr := 1
    backends := fun _ => Option.none
    active := 0 }

/-- AudioBackendManager.register_backend (lines 202-209): stores the object
reference under its backend_type key and returns True (the except branch is
unreachable: a dict assignment does not raise). -/
def register_backend (m : ManagerState) (a : Nat) : ManagerState × Bool :=
  ({ m with backends := Function.update m.backends (backend_type (m.heap a)) (Option.some a) },
   true)

/-- The non-NONE, registered arm of set_active_backend (lines 222-239):
availability probe (which may mutate the probed object), shutdown of the
current active object, initialization attempt, and on failure installation
of a fresh initialized Null fallback. -/
def set_active_registered (m : ManagerState) (ba : Nat) : ManagerState × Bool :=
  let r := backend_is_available (m.heap ba)
  let m1 : ManagerState := { m with heap := Function.update m.heap ba r.1 }
  if r.2 then
    let m2 : ManagerState :=
      { m1 with heap := Function.update m1.heap m1.active (backend_shutdown (m1.heap m1.active)) }
    let ri := backend_init (m2.heap ba)
    let m3 : ManagerState := { m2 with heap := Function.update m2.heap ba ri.1 }
    if ri.2 then ({ m3 with active := ba }, true)
    else
      ({ m3 with heap := Function.update m3.heap m3.nextAddr initNull,
                 nextAddr := m3.nextAddr + 1, active := m3.nextAddr }, false)
  else (m1, false)

/-- AudioBackendManager.set_active_backend (lines 211-239). -/
def set_active_backend (m : ManagerState) (t : AudioBackendType) : ManagerState × Bool :=
  if t = AudioBackendType.none_ then
    let m1 : ManagerState :=
      { m with heap := Function.update m.heap m.active (backend_shutdown (m.heap m.active)) }
    ({ m1 with heap := Function.update m1.heap m1.nextAddr initNull,
               nextAddr := m1.nextAddr + 1, active := m1.nextAddr }, true)
  else
    match m.backends t with
    | Option.none => (m, false)
    | Option.some ba => set_active_registered m ba

/-! ## Concrete objects and scenarios used by the witnesses and
counterexamples below -/

/-- The listener at the origin. -/
def sp0 : SpatialPosition := { x := 0, y := 0, z := 0 }

/-- A source position away from the origin. -/
def sp5 : SpatialPosition := { x := 3, y := 0, z := 4 }

/-- A positioned acoustic profile. -/
def mdTest : AudioMetadata :=
  { name := "t", description := "t", frequency_range := (100, 1000),
    volume_db := 0, spatial_falloff := 1, reverb_amount := 0,
    occlusion_factor := 1, directional := false, position := Option.some sp5 }

/-- A profile with no source position. -/
def md0 : AudioMetadata :=
  { name := "m", description := "d", frequency_range := (100, 1000),
    volume_db := 0, spatial_falloff := 1, reverb_amount := 0,
    occlusion_factor := 1, directional := false, position := Option.none }

/-- The source position of the end-to-end example of the spec. -/
def c7pos : SpatialPosition := { x := 10, y := 0, z := 0 }

/-- The profile of the end-to-end example of the spec: volumeDb -18,
spatialFalloff 2.5, occlusionFactor 0.7, position (10, 0, 0). -/
def c7md : AudioMetadata :=
  { name := "op", description := "d", frequency_range := (100, 1000),
    volume_db := -18, spatial_falloff := 2.5, reverb_amount := 0,
    occlusion_factor := 0.7, directional := false, position := Option.some c7pos }

/-- An OpenAL backend whose library import succeeded but that has never been
initialized. -/
def uninitOal : Backend :=
  { cls := BackendClass.openalB, initialized := false, openal_available := true,
    device_ok := true, is_windows := false, winsound_available := false }

/-- An OpenAL backend whose library is present (so is_available() is true)
but whose device acquisition fails (so initialize() returns False). -/
def oalBadDev : Backend :=
  { cls := BackendClass.openalB, initialized := false, openal_available := true,
    device_ok := false, is_windows := false, winsound_available := false }

/-- An OpenAL backend that initializes successfully. -/
def oalGood : Backend :=
  { cls := BackendClass.openalB, initialized := false, openal_available := true,
    device_ok := true, is_windows := false, winsound_available := false }

/-- A WindowsSpatialBackend constructed on a non-Windows host: both
is_available() and initialize() return False. -/
def winBad : Backend :=
  { cls := BackendClass.windowsB, initialized := false, openal_available := false,
    device_ok := false, is_windows := false, winsound_available := false }

/-- A manager with oalBadDev registered (at address 1). -/
def c1wState : ManagerState := (register_backend (alloc newManager oalBadDev).1 1).1

/-- A manager built through the public API: oalGood registered and activated
(address 1), then winBad registered (address 2).  The active backend is the
initialized OpenAL object. -/
def c1cState : ManagerState :=
  (register_backend
    (alloc ((set_active_backend
      (register_backend (alloc newManager oalGood).1 1).1
      AudioBackendType.openal).1) winBad).1 2).1

/-! ## Helper lemmas -/

theorem distance_and_direction_dx (p lp : SpatialPosition) :
    (distance_and_direction (Option.some p) lp).dx = p.x - lp.x := by
  simp only [distance_and_direction]
  split <;> rfl

theorem distance_and_direction_dz (p lp : SpatialPosition) :
    (distance_and_direction (Option.some p) lp).dz = p.z - lp.z := by
  simp only [distance_and_direction]
  split <;> rfl

theorem distance_and_direction_dist (p lp : SpatialPosition) :
    (distance_and_direction (Option.some p) lp).distance =
      Real.sqrt ((p.x - lp.x) ^ 2 + (p.y - lp.y) ^ 2 + (p.z - lp.z) ^ 2) := by
  simp only [distance_and_direction]
  split <;> rfl

theorem normalize_down_le (a : Real) : normalize_down a ≤ 180 := by
  induction a using normalize_down.induct with
  | case1 a h ih => rw [normalize_down, dif_pos h]; exact ih
  | case2 a h => rw [normalize_down, dif_neg h]; linarith

theorem normalize_up_ge (a : Real) : -180 ≤ normalize_up a := by
  induction a using normalize_up.induct with
  | case1 a h ih => rw [normalize_up, dif_pos h]; exact ih
  | case2 a h => rw [normalize_up, dif_neg h]; linarith

theorem normalize_up_le (a : Real) : a ≤ 180 → normalize_up a ≤ 180 := by
  induction a using normalize_up.induct with
  | case1 a h ih =>
      intro _
      rw [normalize_up, dif_pos h]
      exact ih (by linarith)
  | case2 a h => intro ha; rw [normalize_up, dif_neg h]; exact ha

theorem backend_init_snd_shutdown (b : Backend) :
    (backend_init (backend_shutdown b)).2 = (backend_init b).2 := by
  cases hc : b.cls with
  | nullB => simp [backend_init, backend_shutdown, hc]
  | openalB =>
      simp only [backend_init, backend_shutdown, hc]
      split_ifs <;> simp_all
  | windowsB =>
      simp only [backend_init, backend_shutdown, hc]
      split_ifs <;> rfl

theorem backend_init_snd_avail (b : Backend) :
    (backend_init (backend_is_available b).1).2 = (backend_init b).2 := by
  cases hc : b.cls with
  | nullB => simp [backend_init, backend_is_available, hc]
  | openalB => simp [backend_init, backend_is_available, hc]
  | windowsB => simp [backend_init, backend_is_available, hc]

/-! ## Claim C1 -/

/-- Claim C1, counterexample to the claim as stated: in a manager reachable
through the public API (an initialized OpenAL backend active, a
WindowsSpatialBackend registered on a non-Windows host), the registered
windows_spatial variant's initialize() returns false, set_active_backend
for it returns failure, yet the active backend afterwards is not a Null
fallback instance — set_active_backend bails out at the availability probe
and leaves the previously active backend in place. -/
theorem c1_counterexample :
    c1cState.backends AudioBackendType.windows_spatial = Option.some 2 ∧
    (backend_init (c1cState.heap 2)).2 = false ∧
    (set_active_backend c1cState AudioBackendType.windows_spatial).2 = false ∧
    ((set_active_backend c1cState AudioBackendType.windows_spatial).1.heap
      (set_active_backend c1cState AudioBackendType.windows_spatial).1.active).cls ≠
      BackendClass.nullB := by
  decide

/-- Claim C1, amended: for every registered non-fallback variant whose
availability probe succeeds and whose initialize() returns false,
set_active_backend returns failure and afterwards the active backend is a
freshly allocated Null fallback instance, initialized and ready (and in
particular distinct from the previously active object). -/
theorem c1_set_active_fallback :
    ∀ (m : ManagerState) (t : AudioBackendType) (a : Nat),
      t ≠ AudioBackendType.none_ →
      m.backends t = Option.some a →
      (backend_is_available (m.heap a)).2 = true →
      (backend_init (m.heap a)).2 = false →
      m.active < m.nextAddr →
      (set_active_backend m t).2 = false ∧
      (set_active_backend m t).1.active = m.nextAddr ∧
      ((set_active_backend m t).1.heap (set_active_backend m t).1.active).cls =
        BackendClass.nullB ∧
      ((set_active_backend m t).1.heap (set_active_backend m t).1.active).initialized =
        true ∧
      (set_active_backend m t).1.active ≠ m.active := by
  intro m t a ht ha hav hfail hlt
  have hred : set_active_backend m t = set_active_registered m a := by
    simp only [set_active_backend, if_neg ht, ha]
  rw [hred]
  have havail1 : (backend_init ((backend_is_available (m.heap a)).1)).2 = false := by
    rw [backend_init_snd_avail]; exact hfail
  have hsd : (backend_init (backend_shutdown ((backend_is_available (m.heap a)).1))).2 =
      false := by
    rw [backend_init_snd_shutdown, backend_init_snd_avail]; exact hfail
  have hinner : (backend_init ((Function.update
      (Function.update m.heap a (backend_is_available (m.heap a)).1) m.active
      (backend_shutdown (Function.update m.heap a
        (backend_is_available (m.heap a)).1 m.active))) a)).2 = false := by
    by_cases hm : a = m.active
    · subst hm
      rw [Function.update_same, Function.update_same]
      exact hsd
    · rw [Function.update_noteq hm, Function.update_same]
      exact havail1
  unfold set_active_registered
  simp only [hav, if_true, hinner, Bool.false_eq_true, if_false,
    Function.update_same, true_and]
  exact ⟨rfl, rfl, by omega⟩

/-- Claim C1 witness: the amended theorem applied to a concrete manager in
which an OpenAL backend whose device acquisition fails (but whose library
probe succeeds) is registered at address 1. -/
theorem c1_witness :
    (set_active_backend c1wState AudioBackendType.openal).2 = false ∧
    (set_active_backend c1wState AudioBackendType.openal).1.active = c1wState.nextAddr ∧
    ((set_active_backend c1wState AudioBackendType.openal).1.heap
      (set_active_backend c1wState AudioBackendType.openal).1.active).cls =
      BackendClass.nullB ∧
    ((set_active_backend c1wState AudioBackendType.openal).1.heap
      (set_active_backend c1wState AudioBackendType.openal).1.active).initialized =
      true ∧
    (set_active_backend c1wState AudioBackendType.openal).1.active ≠ c1wState.active :=
  c1_set_active_fallback c1wState AudioBackendType.openal 1 (by decide) (by decide)
    (by decide) (by decide) (by decide)

/-! ## Claim C2 -/

/-- Claim C2: for every backend variant and every input, if the processing
result has success = false then its processed_audio field is None. -/
theorem c2_failure_no_parameters :
    ∀ (b : Backend) md lp lo,
      (process_spatial_audio b md lp lo).success = false →
      (process_spatial_audio b md lp lo).processed_audio = Option.none := by
  intro b md lp lo h
  cases hc : b.cls with
  | nullB =>
      rw [process_spatial_audio, hc] at h
      simp only [null_process_spatial_audio] at h
      cases h
  | openalB =>
      rw [process_spatial_audio, hc] at h ⊢
      by_cases hi : b.initialized
      · simp only [openal_process_spatial_audio, hi, if_true] at h
        cases h
      · simp [openal_process_spatial_audio, hi]
  | windowsB =>
      rw [process_spatial_audio, hc] at h ⊢
      by_cases hi : b.initialized
      · simp only [windows_process_spatial_audio, hi, if_true] at h
        cases h
      · simp [windows_process_spatial_audio, hi]

/-- Claim C2 witness: an uninitialized OpenAL backend returns a failed
result, and the theorem yields that its parameters are absent. -/
theorem c2_witness :
    (process_spatial_audio uninitOal md0 sp0 (0, 0, 0)).success = false ∧
    (process_spatial_audio uninitOal md0 sp0 (0, 0, 0)).processed_audio =
      Option.none := by
  refine ⟨rfl, ?_⟩
  exact c2_failure_no_parameters uninitOal md0 sp0 (0, 0, 0) rfl

/-! ## Claim C3 -/

/-- Claim C3, counterexample to the claim as stated: the Null/Fallback
variant never checks its initialized flag — an uninitialized
NullAudioBackend's process returns success = true with a parameters
payload, not the claimed success = false with no parameters. -/
theorem c3_counterexample :
    freshNull.initialized = false ∧
    (process_spatial_audio freshNull md0 sp0 (0, 0, 0)).success = true ∧
    (process_spatial_audio freshNull md0 sp0 (0, 0, 0)).processed_audio ≠
      Option.none := by
  refine ⟨rfl, rfl, ?_⟩
  show Option.some _ ≠ Option.none
  exact Option.some_ne_none _

/-- Claim C3, amended: for the OpenAL and Windows-spatial variants, calling
process when the backend is not initialized returns success = false with an
explanatory message and no parameters, for all inputs; the Null variant is
excluded, as it processes regardless of its initialization state. -/
theorem c3_uninitialized_reported :
    ∀ (b : Backend) md lp lo, b.initialized = false →
      b.cls = BackendClass.openalB ∨ b.cls = BackendClass.windowsB →
      (process_spatial_audio b md lp lo).success = false ∧
      (process_spatial_audio b md lp lo).processed_audio = Option.none ∧
      (b.cls = BackendClass.openalB →
        (process_spatial_audio b md lp lo).message = "OpenAL backend not initialized") ∧
      (b.cls = BackendClass.windowsB →
        (process_spatial_audio b md lp lo).message =
          "Windows Spatial Sound backend not initialized") := by
  intro b md lp lo hinit hcls
  cases hcls with
  | inl hc =>
      rw [process_spatial_audio, hc]
      simp [openal_process_spatial_audio, hinit]
  | inr hc =>
      rw [process_spatial_audio, hc]
      simp [windows_process_spatial_audio, hinit]

/-- Claim C3 witness: the amended theorem applied to a concrete
uninitialized OpenAL backend. -/
theorem c3_witness :
    (process_spatial_audio uninitOal md0 sp0 (0, 0, 0)).success = false ∧
    (process_spatial_audio uninitOal md0 sp0 (0, 0, 0)).processed_audio =
      Option.none ∧
    (process_spatial_audio uninitOal md0 sp0 (0, 0, 0)).message =
      "OpenAL backend not initialized" := by
  have h := c3_uninitialized_reported uninitOal md0 sp0 (0, 0, 0) rfl (Or.inl rfl)
  exact ⟨h.1, h.2.1, h.2.2.1 rfl⟩

/-! ## Claim C4 -/

/-- Claim C4: for every volume v, distance d ≥ 0, falloff f and occlusion
factor o, the attenuated volume is v - d*f when d ≤ 5.0 and
v - d*f - (1 - o)*K when d > 5.0 with K = 10.0 for the OpenAL backend and
K = 12.0 for the Windows-spatial backend; and the attenuated_volume_db
fields computed by the two backends are exactly these functions applied to
the profile's fields and the computed distance. -/
theorem c4_attenuation_formula :
    (∀ v d f o : Real, 0 ≤ d →
      (d ≤ 5 → openal_attenuate v d f o = v - d * f ∧
               windows_attenuate v d f o = v - d * f) ∧
      (5 < d → openal_attenuate v d f o = v - d * f - (1 - o) * 10 ∧
               windows_attenuate v d f o = v - d * f - (1 - o) * 12)) ∧
    (∀ md lp lo,
      (openal_calculate_spatial_parameters md lp lo).attenuated_volume_db =
        openal_attenuate md.volume_db (distance_and_direction md.position lp).distance
          md.spatial_falloff md.occlusion_factor ∧
      (windows_calculate_spatial_parameters md lp lo).attenuated_volume_db =
        windows_attenuate md.volume_db (distance_and_direction md.position lp).distance
          md.spatial_falloff md.occlusion_factor) := by
  constructor
  · intro v d f o _
    constructor
    · intro h
      constructor <;>
        · simp only [openal_attenuate, windows_attenuate]
          rw [if_neg (not_lt.mpr h)]
    · intro h
      constructor <;>
        · simp only [openal_attenuate, windows_attenuate]
          rw [if_pos h]
  · intro md lp lo
    exact ⟨rfl, rfl⟩

/-- Claim C4 witness: both branches of the formula at concrete inputs. -/
theorem c4_witness :
    openal_attenuate (-18) 10 2.5 0.7 = -18 - 10 * 2.5 - (1 - 0.7) * 10 ∧
    windows_attenuate 0 3 1 0.5 = 0 - 3 * 1 := by
  constructor
  · exact ((c4_attenuation_formula.1 (-18) 10 2.5 0.7 (by norm_num)).2 (by norm_num)).1
  · exact ((c4_attenuation_formula.1 0 3 1 0.5 (by norm_num)).1 (by norm_num)).2

/-! ## Claim C5 -/

/-- Claim C5: the azimuth reported by the spatial computation is the
atan2(dx, dz) angle converted to degrees, taken relative to the listener
yaw, and normalized into [-180, 180] by adding or subtracting 360 until in
range; in particular a raw relative azimuth of 270 degrees is reported as
-90 and -270 as 90. -/
theorem c5_azimuth_normalization :
    (∀ md lp lo sp, md.position = Option.some sp →
      (windows_calculate_spatial_parameters md lp lo).azimuth =
        normalize_angle (degrees (atan2 (sp.x - lp.x) (sp.z - lp.z)) - lo.1)) ∧
    (∀ a : Real, -180 ≤ normalize_angle a ∧ normalize_angle a ≤ 180) ∧
    normalize_angle 270 = -90 ∧ normalize_angle (-270) = 90 := by
  refine ⟨?_, ?_, ?_, ?_⟩
  · intro md lp lo sp hpos
    simp only [windows_calculate_spatial_parameters, hpos,
      distance_and_direction_dx, distance_and_direction_dz]
  · intro a
    exact ⟨normalize_up_ge _, normalize_up_le _ (normalize_down_le a)⟩
  · unfold normalize_angle
    rw [normalize_down, dif_pos (by norm_num : (180:Real) < 270)]
    rw [show (270:Real) - 360 = -90 by norm_num]
    rw [normalize_down, dif_neg (by norm_num)]
    rw [normalize_up, dif_neg (by norm_num)]
  · unfold normalize_angle
    rw [normalize_down, dif_neg (by norm_num)]
    rw [normalize_up, dif_pos (by norm_num : (-270:Real) < -180)]
    rw [show (-270:Real) + 360 = 90 by norm_num]
    rw [normalize_up, dif_neg (by norm_num)]

/-- Claim C5 witness: the azimuth equation at a concrete positioned profile,
plus the 270-to--90 normalization instance. -/
theorem c5_witness :
    (windows_calculate_spatial_parameters mdTest sp0 (0, 0, 0)).azimuth =
      normalize_angle (degrees (atan2 (sp5.x - sp0.x) (sp5.z - sp0.z)) - 0) ∧
    normalize_angle 270 = -90 := by
  exact ⟨c5_azimuth_normalization.1 mdTest sp0 (0, 0, 0) sp5 rfl,
    c5_azimuth_normalization.2.2.1⟩

/-! ## Claim C6 -/

/-- Claim C6, counterexample to the claim as stated: dbToLinearGain(-1000)
is 10^(-50), a strictly positive real, so it is not 0.0 as the claim
asserts (the lower clamp bound is never attained by a positive power). -/
theorem c6_counterexample : db_to_linear_gain (-1000) ≠ 0 := by
  unfold db_to_linear_gain
  have h0 : (0:Real) < (10:Real) ^ ((-1000:Real) / 20) :=
    Real.rpow_pos_of_pos (by norm_num) _
  have h1 : (0:Real) < min 1 ((10:Real) ^ ((-1000:Real) / 20)) := lt_min one_pos h0
  rw [max_eq_right h1.le]
  exact ne_of_gt h1

/-- Claim C6, amended: dbToLinearGain(db) equals 10^(db/20) clamped into
[0.0, 1.0] (it equals the power when the power is at most 1, and equals 1
when the power is at least 1); dbToLinearGain(1000) = 1.0, and
dbToLinearGain(-1000) = 10^(-50), which is positive, not 0.0. -/
theorem c6_db_to_linear_gain :
    (∀ db : Real,
      ((10:Real) ^ (db / 20) ≤ 1 → db_to_linear_gain db = (10:Real) ^ (db / 20)) ∧
      (1 ≤ (10:Real) ^ (db / 20) → db_to_linear_gain db = 1)) ∧
    db_to_linear_gain 1000 = 1 ∧
    db_to_linear_gain (-1000) = (10:Real) ^ ((-50:Real)) ∧
    0 < (10:Real) ^ ((-50:Real)) := by
  have hgen : ∀ db : Real,
      ((10:Real) ^ (db / 20) ≤ 1 → db_to_linear_gain db = (10:Real) ^ (db / 20)) ∧
      (1 ≤ (10:Real) ^ (db / 20) → db_to_linear_gain db = 1) := by
    intro db
    have hpos : (0:Real) < (10:Real) ^ (db / 20) :=
      Real.rpow_pos_of_pos (by norm_num) _
    constructor
    · intro h
      unfold db_to_linear_gain
      rw [min_eq_right h, max_eq_right hpos.le]
    · intro h
      unfold db_to_linear_gain
      rw [min_eq_left h]
      norm_num
  refine ⟨hgen, ?_, ?_, Real.rpow_pos_of_pos (by norm_num) _⟩
  · apply (hgen 1000).2
    rw [show (1000:Real) / 20 = 50 by norm_num]
    calc (1:Real) = (10:Real) ^ (0:Real) := (Real.rpow_zero 10).symm
    _ ≤ (10:Real) ^ (50:Real) :=
        Real.rpow_le_rpow_of_exponent_le (by norm_num) (by norm_num)
  · have h := (hgen (-1000)).1
    rw [show (-1000:Real) / 20 = -50 by norm_num] at h
    apply h
    calc (10:Real) ^ ((-50:Real)) ≤ (10:Real) ^ (0:Real) :=
        Real.rpow_le_rpow_of_exponent_le (by norm_num) (by norm_num)
    _ = 1 := Real.rpow_zero 10

/-- Claim C6 witness: the clamping characterization applied at db = 0. -/
theorem c6_witness : db_to_linear_gain 0 = 1 := by
  apply (c6_db_to_linear_gain.1 0).2
  rw [show (0:Real) / 20 = 0 by norm_num, Real.rpow_zero]

/-! ## Claim C7 -/

/-- Claim C7: the Null backend applies no occlusion penalty at any distance
— for every positioned profile its parameters hold exactly the Euclidean
distance and volumeDb - distance * spatialFalloff; and on the spec's
end-to-end example (volumeDb -18, falloff 2.5, occlusion 0.7, source at
(10,0,0), listener at the origin) the initialized Null backend returns
success = true with distance exactly 10.0 and attenuated volume exactly
-43.0. -/
theorem c7_null_end_to_end :
    (∀ (b : Backend) md lp lo sp, b.cls = BackendClass.nullB →
      md.position = Option.some sp →
      (process_spatial_audio b md lp lo).success = true ∧
      (process_spatial_audio b md lp lo).processed_audio =
        Option.some (ProcessedAudio.nullData
          { distance :=
              Real.sqrt ((sp.x - lp.x) ^ 2 + (sp.y - lp.y) ^ 2 + (sp.z - lp.z) ^ 2)
            attenuated_volume_db := md.volume_db -
              Real.sqrt ((sp.x - lp.x) ^ 2 + (sp.y - lp.y) ^ 2 + (sp.z - lp.z) ^ 2) *
                md.spatial_falloff
            note := "Using NullAudioBackend - metadata only, no actual audio processing" })) ∧
    ((process_spatial_audio initNull c7md sp0 (0, 0, 0)).success = true ∧
     (process_spatial_audio initNull c7md sp0 (0, 0, 0)).processed_audio =
       Option.some (ProcessedAudio.nullData
         { distance := 10, attenuated_volume_db := -43,
           note := "Using NullAudioBackend - metadata only, no actual audio processing" })) := by
  have hgen : ∀ (b : Backend) md lp lo sp, b.cls = BackendClass.nullB →
      md.position = Option.some sp →
      (process_spatial_audio b md lp lo).success = true ∧
      (process_spatial_audio b md lp lo).processed_audio =
        Option.some (ProcessedAudio.nullData
          { distance :=
              Real.sqrt ((sp.x - lp.x) ^ 2 + (sp.y - lp.y) ^ 2 + (sp.z - lp.z) ^ 2)
            attenuated_volume_db := md.volume_db -
              Real.sqrt ((sp.x - lp.x) ^ 2 + (sp.y - lp.y) ^ 2 + (sp.z - lp.z) ^ 2) *
                md.spatial_falloff
            note := "Using NullAudioBackend - metadata only, no actual audio processing" }) := by
    intro b md lp lo sp hcls hpos
    constructor
    · simp only [process_spatial_audio, hcls, null_process_spatial_audio]
    · simp only [process_spatial_audio, hcls, null_process_spatial_audio, hpos]
  refine ⟨hgen, ?_⟩
  have h := hgen initNull c7md sp0 (0, 0, 0) c7pos rfl rfl
  refine ⟨h.1, ?_⟩
  rw [h.2]
  have hs : Real.sqrt ((c7pos.x - sp0.x) ^ 2 + (c7pos.y - sp0.y) ^ 2 +
      (c7pos.z - sp0.z) ^ 2) = 10 := by
    show Real.sqrt (((10:Real) - 0) ^ 2 + ((0:Real) - 0) ^ 2 + ((0:Real) - 0) ^ 2) = 10
    rw [show ((10:Real) - 0) ^ 2 + ((0:Real) - 0) ^ 2 + ((0:Real) - 0) ^ 2 = 10 ^ 2 by
      norm_num]
    exact Real.sqrt_sq (by norm_num)
  rw [hs]
  norm_num
  show (-18:Real) - 10 * 2.5 = -43
  norm_num

/-- Claim C7 witness: the theorem applied at the concrete example. -/
theorem c7_witness :
    (process_spatial_audio initNull c7md sp0 (0, 0, 0)).success = true :=
  (c7_null_end_to_end.1 initNull c7md sp0 (0, 0, 0) c7pos rfl rfl).1

/-! ## Claim C8 -/

/-- Claim C8: for fixed volume, falloff f ≥ 0 and occlusion factor o in
[0, 1], both backends' attenuation functions are monotonically
non-increasing in the distance (across the 5.0 threshold included), and for
fixed distance d > 5.0 non-decreasing in the occlusion factor. -/
theorem c8_attenuate_monotone :
    (∀ v f o d1 d2 : Real, 0 ≤ f → 0 ≤ o → o ≤ 1 → 0 ≤ d1 → d1 ≤ d2 →
      openal_attenuate v d2 f o ≤ openal_attenuate v d1 f o ∧
      windows_attenuate v d2 f o ≤ windows_attenuate v d1 f o) ∧
    (∀ v f d o1 o2 : Real, 0 ≤ f → 5 < d → o1 ≤ o2 →
      openal_attenuate v d f o1 ≤ openal_attenuate v d f o2 ∧
      windows_attenuate v d f o1 ≤ windows_attenuate v d f o2) := by
  constructor
  · intro v f o d1 d2 hf _ ho1 _ h12
    have hdf : d1 * f ≤ d2 * f := mul_le_mul_of_nonneg_right h12 hf
    constructor <;>
      · simp only [openal_attenuate, windows_attenuate]
        split_ifs with h1 h2
        · linarith
        · have hocc : (0:Real) ≤ (1 - o) * 10 ∧ (0:Real) ≤ (1 - o) * 12 := by
            constructor <;> nlinarith
          linarith [hocc.1, hocc.2]
        · linarith
        · linarith
  · intro v f d o1 o2 _ hd ho
    constructor <;>
      · simp only [openal_attenuate, windows_attenuate]
        rw [if_pos hd, if_pos hd]
        nlinarith

/-- Claim C8 witness: both monotonicity directions at concrete inputs. -/
theorem c8_witness :
    openal_attenuate 0 10 1 0.5 ≤ openal_attenuate 0 4 1 0.5 ∧
    windows_attenuate 0 10 1 0.2 ≤ windows_attenuate 0 10 1 0.9 := by
  constructor
  · exact (c8_attenuate_monotone.1 0 1 0.5 4 10 (by norm_num) (by norm_num)
      (by norm_num) (by norm_num) (by norm_num)).1
  · exact (c8_attenuate_monotone.2 0 1 10 0.2 0.9 (by norm_num) (by norm_num)
      (by norm_num)).2

/-! ## Claim C9 -/

/-- Claim C9: the distance-and-direction computation returns distance 0 and
direction (0,0,0) when the profile has no source position, and returns
direction (0,0,0) (rather than dividing by zero) whenever the Euclidean
distance between source and listener is exactly 0. -/
theorem c9_distance_and_direction (lp : SpatialPosition) :
    ((distance_and_direction Option.none lp).distance = 0 ∧
     (distance_and_direction Option.none lp).direction = (0, 0, 0)) ∧
    (∀ p, (distance_and_direction (Option.some p) lp).distance = 0 →
      (distance_and_direction (Option.some p) lp).direction = (0, 0, 0)) := by
  refine ⟨⟨rfl, rfl⟩, ?_⟩
  intro p h
  rw [distance_and_direction_dist] at h
  simp only [distance_and_direction]
  rw [if_neg]
  rw [h]
  exact lt_irrefl 0

/-- Claim C9 witness: source co-located with the listener gives distance 0
and the degenerate direction. -/
theorem c9_witness :
    (distance_and_direction (Option.some { x := 1, y := 2, z := 3 })
      { x := 1, y := 2, z := 3 }).direction = (0, 0, 0) := by
  apply c9_distance_and_direction { x := 1, y := 2, z := 3 } |>.2
  rw [distance_and_direction_dist]
  norm_num

/-! ## Claim C10 -/

/-- Claim C10: register_backend returns true and changes only the
registered-backend table entry for the backend's variant — the active
reference, the heap (hence the stored backend's initialization state) and
the allocator are unchanged, the entry for the backend's variant now holds
it, and every other entry is untouched. -/
theorem c10_register_frame :
    ∀ (m : ManagerState) (a : Nat),
      (register_backend m a).2 = true ∧
      (register_backend m a).1.active = m.active ∧
      (register_backend m a).1.heap = m.heap ∧
      (register_backend m a).1.nextAddr = m.nextAddr ∧
      (register_backend m a).1.backends (backend_type (m.heap a)) = Option.some a ∧
      (∀ u, u ≠ backend_type (m.heap a) →
        (register_backend m a).1.backends u = m.backends u) ∧
      ((register_backend m a).1.heap a).initialized = (m.heap a).initialized := by
  intro m a
  refine ⟨rfl, rfl, rfl, rfl, Function.update_same _ _ _, ?_, rfl⟩
  intro u hu
  exact Function.update_noteq hu _ _

/-- Claim C10 witness: the frame conditions at a concrete registration. -/
theorem c10_witness :
    (register_backend newManager 0).2 = true ∧
    (register_backend newManager 0).1.active = newManager.active ∧
    (register_backend newManager 0).1.backends AudioBackendType.openal =
      newManager.backends AudioBackendType.openal := by
  refine ⟨(c10_register_frame newManager 0).1, (c10_register_frame newManager 0).2.1, ?_⟩
  exact (c10_register_frame newManager 0).2.2.2.2.2.1 AudioBackendType.openal (by decide)

end Siege6
